import Mathlib

/-!
Shallow embedding of the `curlify` translator (`jsonToCurl` in the source):
it maps an n8n HTTP-request configuration object to a curl command string.

Conventions of the embedding:
* A JavaScript value that can appear in the configuration is modelled by
  `Json`; absent (`undefined`) fields are `Option.none`.
* A mapping (`headers`, `form`) is modelled as an association list in
  insertion order, which is the order `Object.entries` enumerates the
  string keys of a parsed JSON object.
* JavaScript truthiness of the resolved field values is made explicit:
  `Json.truthy`, and for optional strings "non-empty"; an optional boolean
  flag is truthy exactly when it is `some true`.
* `JSON.stringify`, `encodeURIComponent` and `String.prototype.replace`
  (with the single-quote pattern) are modelled by `Json.stringify`,
  `encodeURIComponent` and `escapeQuotes`; `toUpperCase` is modelled on
  ASCII letters, which covers HTTP verbs.
-/

/-- JSON-like JavaScript values (numbers restricted to integers, which is
what the n8n request logs contain). -/
inductive Json where
  | null
  | bool (b : Bool)
  | num (n : Int)
  | str (s : String)
  | arr (xs : List Json)
  | obj (fields : List (String × Json))

/-- The single-quote character, written by code point to keep literals
uniform. -/
def squote : Char := Char.ofNat 39

/-- JavaScript truthiness of a `Json` value: `null`, `false`, `0` and the
empty string are falsy; arrays and objects (even empty ones) are truthy. -/
def Json.truthy : Json → Bool
  | .null => false
  | .bool b => b
  | .num n => decide (n ≠ 0)
  | .str s => decide (s ≠ "")
  | .arr _ => true
  | .obj _ => true

/-- Uppercase hexadecimal digit for `n < 16`. -/
def hexUpper (n : Nat) : Char :=
  if n < 10 then Char.ofNat (48 + n) else Char.ofNat (55 + n)

/-- One character of `JSON.stringify` string escaping. -/
def escapeJsonChar (c : Char) : String :=
  if c = '"' then "\\\""
  else if c = '\\' then "\\\\"
  else if c.toNat = 8 then "\\b"
  else if c.toNat = 9 then "\\t"
  else if c.toNat = 10 then "\\n"
  else if c.toNat = 12 then "\\f"
  else if c.toNat = 13 then "\\r"
  else if c.toNat < 32 then
    "\\u00" ++ String.singleton (hexUpper (c.toNat / 16)) ++ String.singleton (hexUpper (c.toNat % 16))
  else String.singleton c

/-- `JSON.stringify` of a string: quoted with control characters, quotes
and backslashes escaped. -/
def jsonQuote (s : String) : String :=
  "\"" ++ String.join (s.data.map escapeJsonChar) ++ "\""

/-- Compact `JSON.stringify` (no spacing), as the source calls it on a
structured `body`. -/
def Json.stringify : Json → String
  | .null => "null"
  | .bool true => "true"
  | .bool false => "false"
  | .num n => toString n
  | .str s => jsonQuote s
  | .arr xs => "[" ++ String.intercalate "," (xs.attach.map (fun x => Json.stringify x.1)) ++ "]"
  | .obj fs => "\x7b" ++ String.intercalate "," (fs.attach.map (fun f => jsonQuote f.1.1 ++ ":" ++ Json.stringify f.1.2)) ++ "\x7d"
termination_by j => sizeOf j
decreasing_by
  · have h := List.sizeOf_lt_of_mem x.2
    simp only [Json.arr.sizeOf_spec] at *
    omega
  · have h := List.sizeOf_lt_of_mem f.2
    obtain ⟨⟨k, v⟩, hf⟩ := f
    simp only [Prod.mk.sizeOf_spec] at h
    simp only [Json.obj.sizeOf_spec] at *
    omega

/-- UTF-8 bytes of a code point, as `encodeURIComponent` percent-encodes
them. -/
def utf8Bytes (n : Nat) : List Nat :=
  if n < 128 then [n]
  else if n < 2048 then [192 + n / 64, 128 + n % 64]
  else if n < 65536 then [224 + n / 4096, 128 + (n / 64) % 64, 128 + n % 64]
  else [240 + n / 262144, 128 + (n / 4096) % 64, 128 + (n / 64) % 64, 128 + n % 64]

/-- `%XX` escape of one byte, uppercase hex. -/
def percentByte (b : Nat) : String :=
  "%" ++ String.singleton (hexUpper (b / 16)) ++ String.singleton (hexUpper (b % 16))

/-- The characters `encodeURIComponent` leaves unescaped:
`A–Z a–z 0–9 - _ . ! ~ * ' ( )`. -/
def uriUnreserved (c : Char) : Bool :=
  (decide ('A' ≤ c) && decide (c ≤ 'Z')) ||
  (decide ('a' ≤ c) && decide (c ≤ 'z')) ||
  (decide ('0' ≤ c) && decide (c ≤ '9')) ||
  c == '-' || c == '_' || c == '.' || c == '!' || c == '~' ||
  c == '*' || c == squote || c == '(' || c == ')'

/-- JavaScript's `encodeURIComponent`. -/
def encodeURIComponent (s : String) : String :=
  String.join (s.data.map (fun c =>
    if uriUnreserved c then String.singleton c
    else String.join ((utf8Bytes c.toNat).map percentByte)))

/-- The source's `value.replace(/'/g, "'\\''")`: every single quote becomes
quote, backslash, quote, quote, so the payload stays inside one shell
string. -/
def escapeQuotes (s : String) : String :=
  String.join (s.data.map (fun c =>
    if c = squote then "'\\''" else String.singleton c))

/-- ASCII `toUpperCase`, enough for HTTP verbs. -/
def upperAscii (s : String) : String :=
  String.mk (s.data.map Char.toUpper)

/-- The n8n request configuration consumed by `jsonToCurl`. Every field is
optional; `none` is an absent (or `undefined`/`null`) field. `form` values
may be `null` (`none`), coerced to the empty string by the source.
`rejectUnauthorized` is kept as a full `Json` value because the source
compares it with `=== false`. -/
structure Config where
  method : Option String := none
  uri : Option String := none
  url : Option String := none
  headers : Option (List (String × String)) := none
  form : Option (List (String × Option String)) := none
  body : Option Json := none
  json : Option Bool := none
  gzip : Option Bool := none
  rejectUnauthorized : Option Json := none
  followRedirect : Option Bool := none
  followAllRedirects : Option Bool := none
  timeout : Option Int := none
  resolveWithFullResponse : Option Bool := none

/-- `(config.method || 'GET').toUpperCase()`: an absent or empty method
falls back to `"GET"`. -/
def upperMethod (c : Config) : String :=
  upperAscii (match c.method with
    | some m => if m = "" then "GET" else m
    | none => "GET")

/-- The `-X` token pushed by the source when the method is not `GET`. -/
def methodParts (c : Config) : List String :=
  if upperMethod c = "GET" then [] else ["-X " ++ upperMethod c]

/-- One `-H` token per header entry. -/
def headerFlag (kv : String × String) : String :=
  "-H '" ++ kv.1 ++ ": " ++ escapeQuotes kv.2 ++ "'"

/-- The header tokens, one per entry, in insertion order. -/
def headerParts (c : Config) : List String :=
  match c.headers with
  | some hs => hs.map headerFlag
  | none => []

/-- One `key=value` pair of the form payload; a `null`/absent value is
coerced to the empty string (`value ?? ''`). -/
def formPair (kv : String × Option String) : String :=
  encodeURIComponent kv.1 ++ "=" ++ encodeURIComponent (kv.2.getD "")

/-- The percent-encoded form payload, pairs joined with `&`. -/
def formPayload (fs : List (String × Option String)) : String :=
  String.intercalate "&" (fs.map formPair)

/-- The form `-d` token: pushed when `config.form` is truthy (any object,
even empty) and the built pair list is non-empty. -/
def formParts (c : Config) : List String :=
  match c.form with
  | some fs => if fs = [] then [] else ["-d '" ++ formPayload fs ++ "'"]
  | none => []

/-- `typeof body === 'string' ? body : JSON.stringify(body)`. -/
def bodyString : Json → String
  | .str s => s
  | b => Json.stringify b

/-- The JSON-body `-d` token: pushed when `config.body` and `config.json`
are both truthy. -/
def jsonBodyParts (c : Config) : List String :=
  match c.body with
  | some b =>
    if b.truthy && (c.json.getD false) then ["-d '" ++ escapeQuotes (bodyString b) ++ "'"] else []
  | none => []

/-- The raw-body `-d` token: pushed when `config.body` is truthy,
`config.json` is falsy and `config.form` is falsy (absent), mirroring
`config.body && !config.json && !config.form`. -/
def rawBodyParts (c : Config) : List String :=
  match c.body with
  | some b =>
    if b.truthy && !(c.json.getD false) && c.form.isNone then
      ["-d '" ++ escapeQuotes (bodyString b) ++ "'"]
    else []
  | none => []

/-- `--compressed` when `gzip` is truthy. -/
def gzipParts (c : Config) : List String :=
  if c.gzip.getD false then ["--compressed"] else []

/-- `-k` exactly when `rejectUnauthorized === false`. -/
def insecureParts (c : Config) : List String :=
  match c.rejectUnauthorized with
  | some (Json.bool false) => ["-k"]
  | _ => []

/-- `-L` when `followRedirect` or `followAllRedirects` is truthy. -/
def redirectParts (c : Config) : List String :=
  if c.followRedirect.getD false || c.followAllRedirects.getD false then ["-L"] else []

/-- `Math.ceil(timeout / 1000)` for an integer timeout: Euclidean division
by the positive constant 1000 rounds toward minus infinity, so dividing
`t + 999` yields the ceiling of `t / 1000`. -/
def ceilDiv1000 (t : Int) : Int :=
  (t + 999) / 1000

/-- `--max-time N` when `timeout` is truthy (non-zero). -/
def timeoutParts (c : Config) : List String :=
  match c.timeout with
  | some t => if t = 0 then [] else ["--max-time " ++ toString (ceilDiv1000 t)]
  | none => []

/-- `-i` when `resolveWithFullResponse` is truthy. -/
def fullResponseParts (c : Config) : List String :=
  if c.resolveWithFullResponse.getD false then ["-i"] else []

/-- `config.uri || config.url`: a truthy (non-empty) `uri` wins, otherwise
whatever `url` holds. -/
def resolvedUrl (c : Config) : Option String :=
  match c.uri with
  | some u => if u = "" then c.url else some u
  | none => c.url

/-- The final single-quoted URL token, pushed only when the resolved URL is
truthy (present and non-empty). -/
def urlParts (c : Config) : List String :=
  match resolvedUrl c with
  | some u => if u = "" then [] else ["'" ++ u ++ "'"]
  | none => []

/-- The token list `parts` built by `jsonToCurl`, in the source's push
order. -/
def jsonToCurlParts (c : Config) : List String :=
  ["curl"] ++ methodParts c ++ headerParts c ++ formParts c ++ jsonBodyParts c
    ++ rawBodyParts c ++ gzipParts c ++ insecureParts c ++ redirectParts c
    ++ timeoutParts c ++ fullResponseParts c ++ urlParts c

/-- The separator of `parts.join(' \\\n  ')`: space, backslash, newline,
two-space indent. -/
def curlSep : String := " \\\n  "

/-- The translator: `jsonToCurl` of the source. -/
def jsonToCurl (c : Config) : String :=
  String.intercalate curlSep (jsonToCurlParts c)

/-- A token is an `-X` flag when its first two characters are `-X`. -/
def isXFlag (p : String) : Bool := decide (p.data.take 2 = ['-', 'X'])

/-- A token is an `-H` flag when its first two characters are `-H`. -/
def isHFlag (p : String) : Bool := decide (p.data.take 2 = ['-', 'H'])

/-- A token is a `-d` flag when its first two characters are `-d`. -/
def isDFlag (p : String) : Bool := decide (p.data.take 2 = ['-', 'd'])

/-- A token is a `--max-time` flag when it starts with `--m` (the only
`--m…` token the translator emits). -/
def isMaxTimeFlag (p : String) : Bool := decide (p.data.take 3 = ['-', '-', 'm'])

/-- A token is the quoted URL token when it starts with a single quote. -/
def isUrlToken (p : String) : Bool := decide (p.data.take 1 = [squote])

/-- The empty configuration `{}`. -/
def emptyConfig : Config := {}

/-! ### Concrete configurations used in scenarios, counterexamples and
witnesses -/

/-- Non-empty `form`, a present but falsy body (the empty string), truthy
`json`. -/
def cfgFormFalsyBody : Config :=
  { form := some [("a", some "1")], body := some (Json.str ""), json := some true }

/-- Non-empty `form`, a truthy string body, truthy `json`. -/
def cfgFormAndBody : Config :=
  { form := some [("a", some "1")], body := some (Json.str "hello"), json := some true }

/-- A present but falsy body together with a present-but-empty `form`
mapping (`form: {}` is truthy in JavaScript). -/
def cfgBodyEmptyForm : Config :=
  { body := some (Json.str ""), form := some [] }

/-- A truthy string body alone. -/
def cfgRawBody : Config := { body := some (Json.str "hello") }

/-- Two headers, the second value holding a single quote. -/
def cfgHdr : Config :=
  { headers := some [("Content-Type", "application/json"), ("X-Q", "it's")] }

/-- The spec's form scenario. -/
def cfgForm : Config := { form := some [("a", some "1"), ("b", some "two words")] }

/-- The spec's uri/url precedence scenario. -/
def cfgUriUrl : Config := { uri := some "https://x.test", url := some "https://y.test" }

/-- A lowercase `method`. -/
def cfgPost : Config := { method := some "post" }

/-- `timeout: 1500`. -/
def cfgT1500 : Config := { timeout := some 1500 }

/-- `timeout: 2000`. -/
def cfgT2000 : Config := { timeout := some 2000 }

/-- `rejectUnauthorized: false`. -/
def cfgRejFalse : Config := { rejectUnauthorized := some (Json.bool false) }

/-- `rejectUnauthorized: true`. -/
def cfgRejTrue : Config := { rejectUnauthorized := some (Json.bool true) }

/-- `rejectUnauthorized: 0` (falsy but not the boolean `false`). -/
def cfgRejZero : Config := { rejectUnauthorized := some (Json.num 0) }

/-- An empty-string `url` and no `uri`. -/
def cfgUrlEmpty : Config := { url := some "" }

/-- An empty-string `uri` falling through to `url`. -/
def cfgUriEmptyUrl : Config := { uri := some "", url := some "https://y.test" }

/-! ### Helper lemmas: classifying the emitted tokens by their first characters -/

/-- Taking `n` characters of `s ++ m` only sees `s` when `s` is long
enough. -/
theorem take_append_left (n : Nat) (s m : String) (h : n ≤ s.data.length) :
    (s ++ m).data.take n = s.data.take n := by
  rw [String.data_append, List.take_append_of_le_length h]

/-- The first two characters of `pre ++ mid ++ post` are those of `pre`. -/
theorem take2_wrap (pre mid post : String) (h : 2 ≤ pre.data.length) :
    (pre ++ mid ++ post).data.take 2 = pre.data.take 2 := by
  rw [String.append_assoc, take_append_left 2 _ _ h]

theorem take1_of_take2 {l : List Char} {a b : Char} (h : l.take 2 = [a, b]) :
    l.take 1 = [a] := by
  have h1 := congrArg (List.take 1) h
  rw [List.take_take] at h1
  simpa using h1

theorem take2_of_take3 {l : List Char} {a b c : Char} (h : l.take 3 = [a, b, c]) :
    l.take 2 = [a, b] := by
  have h1 := congrArg (List.take 2) h
  rw [List.take_take] at h1
  simpa using h1

theorem isXFlag_false {p : String} {a b : Char} (h : p.data.take 2 = [a, b])
    (hne : ¬(a = '-' ∧ b = 'X')) : isXFlag p = false := by
  simp only [isXFlag, h, decide_eq_false_iff_not]
  intro h2
  exact hne (by simpa using h2)

theorem isHFlag_false {p : String} {a b : Char} (h : p.data.take 2 = [a, b])
    (hne : ¬(a = '-' ∧ b = 'H')) : isHFlag p = false := by
  simp only [isHFlag, h, decide_eq_false_iff_not]
  intro h2
  exact hne (by simpa using h2)

theorem isDFlag_false {p : String} {a b : Char} (h : p.data.take 2 = [a, b])
    (hne : ¬(a = '-' ∧ b = 'd')) : isDFlag p = false := by
  simp only [isDFlag, h, decide_eq_false_iff_not]
  intro h2
  exact hne (by simpa using h2)

theorem isMaxTimeFlag_false {p : String} {a b : Char} (h : p.data.take 2 = [a, b])
    (hne : ¬(a = '-' ∧ b = '-')) : isMaxTimeFlag p = false := by
  simp only [isMaxTimeFlag, decide_eq_false_iff_not]
  intro h3
  have h2 := take2_of_take3 h3
  rw [h] at h2
  exact hne (by simpa using h2)

theorem isUrlToken_false {p : String} {a b : Char} (h : p.data.take 2 = [a, b])
    (ha : a ≠ squote) : isUrlToken p = false := by
  simp only [isUrlToken, decide_eq_false_iff_not]
  intro h1
  rw [take1_of_take2 h] at h1
  exact ha (by simpa using h1)

theorem isXFlag_false_of_take1 {p : String} {a : Char} (h : p.data.take 1 = [a])
    (ha : a ≠ '-') : isXFlag p = false := by
  simp only [isXFlag, decide_eq_false_iff_not]
  intro h2
  rw [take1_of_take2 h2] at h
  exact ha (by simpa using h.symm)

theorem isHFlag_false_of_take1 {p : String} {a : Char} (h : p.data.take 1 = [a])
    (ha : a ≠ '-') : isHFlag p = false := by
  simp only [isHFlag, decide_eq_false_iff_not]
  intro h2
  rw [take1_of_take2 h2] at h
  exact ha (by simpa using h.symm)

theorem isDFlag_false_of_take1 {p : String} {a : Char} (h : p.data.take 1 = [a])
    (ha : a ≠ '-') : isDFlag p = false := by
  simp only [isDFlag, decide_eq_false_iff_not]
  intro h2
  rw [take1_of_take2 h2] at h
  exact ha (by simpa using h.symm)

theorem take1_of_take3 {l : List Char} {a b c : Char} (h : l.take 3 = [a, b, c]) :
    l.take 1 = [a] := by
  have h1 := congrArg (List.take 1) h
  rw [List.take_take] at h1
  simpa using h1

theorem isMaxTimeFlag_false_of_take1 {p : String} {a : Char} (h : p.data.take 1 = [a])
    (ha : a ≠ '-') : isMaxTimeFlag p = false := by
  simp only [isMaxTimeFlag, decide_eq_false_iff_not]
  intro h2
  rw [take1_of_take3 h2] at h
  exact ha (by simpa using h.symm)

/-! ### Classification of each component's tokens -/

theorem mem_methodParts {c : Config} {p : String} (h : p ∈ methodParts c) :
    p.data.take 2 = ['-', 'X'] := by
  unfold methodParts at h
  split at h
  · simp at h
  · simp at h
    subst h
    rw [take_append_left 2 _ _ (by decide)]
    decide

theorem mem_headerParts {c : Config} {p : String} (h : p ∈ headerParts c) :
    p.data.take 2 = ['-', 'H'] := by
  unfold headerParts at h
  split at h
  · obtain ⟨kv, hkv, rfl⟩ := List.mem_map.mp h
    unfold headerFlag
    rw [String.append_assoc, String.append_assoc, String.append_assoc]
    rw [take_append_left 2 _ _ (by decide)]
    decide
  · simp at h

theorem mem_formParts {c : Config} {p : String} (h : p ∈ formParts c) :
    p.data.take 2 = ['-', 'd'] := by
  unfold formParts at h
  split at h
  · split at h
    · simp at h
    · simp at h
      subst h
      rw [take2_wrap _ _ _ (by decide)]
      decide
  · simp at h

theorem mem_jsonBodyParts {c : Config} {p : String} (h : p ∈ jsonBodyParts c) :
    p.data.take 2 = ['-', 'd'] := by
  unfold jsonBodyParts at h
  split at h
  · split at h
    · simp at h
      subst h
      rw [take2_wrap _ _ _ (by decide)]
      decide
    · simp at h
  · simp at h

theorem mem_rawBodyParts {c : Config} {p : String} (h : p ∈ rawBodyParts c) :
    p.data.take 2 = ['-', 'd'] := by
  unfold rawBodyParts at h
  split at h
  · split at h
    · simp at h
      subst h
      rw [take2_wrap _ _ _ (by decide)]
      decide
    · simp at h
  · simp at h

theorem mem_gzipParts {c : Config} {p : String} (h : p ∈ gzipParts c) :
    p = "--compressed" := by
  unfold gzipParts at h
  split at h
  · simpa using h
  · simp at h

theorem mem_insecureParts {c : Config} {p : String} (h : p ∈ insecureParts c) :
    p = "-k" := by
  unfold insecureParts at h
  split at h
  · simpa using h
  · simp at h

theorem mem_redirectParts {c : Config} {p : String} (h : p ∈ redirectParts c) :
    p = "-L" := by
  unfold redirectParts at h
  split at h
  · simpa using h
  · simp at h

theorem mem_timeoutParts {c : Config} {p : String} (h : p ∈ timeoutParts c) :
    p.data.take 3 = ['-', '-', 'm'] := by
  unfold timeoutParts at h
  split at h
  · split at h
    · simp at h
    · simp at h
      subst h
      rw [take_append_left 3 _ _ (by decide)]
      decide
  · simp at h

theorem mem_fullResponseParts {c : Config} {p : String} (h : p ∈ fullResponseParts c) :
    p = "-i" := by
  unfold fullResponseParts at h
  split at h
  · simpa using h
  · simp at h

theorem mem_urlParts {c : Config} {p : String} (h : p ∈ urlParts c) :
    p.data.take 1 = [squote] := by
  unfold urlParts at h
  split at h
  · split at h
    · simp at h
    · simp at h
      subst h
      rw [String.append_assoc, take_append_left 1 _ _ (by decide)]
      decide
  · simp at h

/-! ### Spine lemmas: what each flag filter keeps of the full token list -/

theorem filter_isD_parts (c : Config) :
    (jsonToCurlParts c).filter isDFlag = formParts c ++ jsonBodyParts c ++ rawBodyParts c := by
  unfold jsonToCurlParts
  simp only [List.filter_append]
  rw [show (["curl"] : List String).filter isDFlag = [] from by decide]
  rw [List.filter_eq_nil_iff.mpr
    (fun p hp => by simp [isDFlag_false (mem_methodParts hp) (by decide)])]
  rw [List.filter_eq_nil_iff.mpr
    (fun p hp => by simp [isDFlag_false (mem_headerParts hp) (by decide)])]
  rw [List.filter_eq_self.mpr (fun p hp => by simp [isDFlag, mem_formParts hp])]
  rw [List.filter_eq_self.mpr (fun p hp => by simp [isDFlag, mem_jsonBodyParts hp])]
  rw [List.filter_eq_self.mpr (fun p hp => by simp [isDFlag, mem_rawBodyParts hp])]
  rw [List.filter_eq_nil_iff.mpr
    (fun p hp => by rw [mem_gzipParts hp]; decide)]
  rw [List.filter_eq_nil_iff.mpr
    (fun p hp => by rw [mem_insecureParts hp]; decide)]
  rw [List.filter_eq_nil_iff.mpr
    (fun p hp => by rw [mem_redirectParts hp]; decide)]
  rw [List.filter_eq_nil_iff.mpr
    (fun p hp => by simp [isDFlag_false (take2_of_take3 (mem_timeoutParts hp)) (by decide)])]
  rw [List.filter_eq_nil_iff.mpr
    (fun p hp => by rw [mem_fullResponseParts hp]; decide)]
  rw [List.filter_eq_nil_iff.mpr
    (fun p hp => by simp [isDFlag_false_of_take1 (mem_urlParts hp) (by decide)])]
  simp

theorem filter_isH_parts (c : Config) :
    (jsonToCurlParts c).filter isHFlag = headerParts c := by
  unfold jsonToCurlParts
  simp only [List.filter_append]
  rw [show (["curl"] : List String).filter isHFlag = [] from by decide]
  rw [List.filter_eq_nil_iff.mpr
    (fun p hp => by simp [isHFlag_false (mem_methodParts hp) (by decide)])]
  rw [List.filter_eq_self.mpr (fun p hp => by simp [isHFlag, mem_headerParts hp])]
  rw [List.filter_eq_nil_iff.mpr
    (fun p hp => by simp [isHFlag_false (mem_formParts hp) (by decide)])]
  rw [List.filter_eq_nil_iff.mpr
    (fun p hp => by simp [isHFlag_false (mem_jsonBodyParts hp) (by decide)])]
  rw [List.filter_eq_nil_iff.mpr
    (fun p hp => by simp [isHFlag_false (mem_rawBodyParts hp) (by decide)])]
  rw [List.filter_eq_nil_iff.mpr
    (fun p hp => by rw [mem_gzipParts hp]; decide)]
  rw [List.filter_eq_nil_iff.mpr
    (fun p hp => by rw [mem_insecureParts hp]; decide)]
  rw [List.filter_eq_nil_iff.mpr
    (fun p hp => by rw [mem_redirectParts hp]; decide)]
  rw [List.filter_eq_nil_iff.mpr
    (fun p hp => by simp [isHFlag_false (take2_of_take3 (mem_timeoutParts hp)) (by decide)])]
  rw [List.filter_eq_nil_iff.mpr
    (fun p hp => by rw [mem_fullResponseParts hp]; decide)]
  rw [List.filter_eq_nil_iff.mpr
    (fun p hp => by simp [isHFlag_false_of_take1 (mem_urlParts hp) (by decide)])]
  simp

theorem filter_isX_parts (c : Config) :
    (jsonToCurlParts c).filter isXFlag = methodParts c := by
  unfold jsonToCurlParts
  simp only [List.filter_append]
  rw [show (["curl"] : List String).filter isXFlag = [] from by decide]
  rw [List.filter_eq_self.mpr (fun p hp => by simp [isXFlag, mem_methodParts hp])]
  rw [List.filter_eq_nil_iff.mpr
    (fun p hp => by simp [isXFlag_false (mem_headerParts hp) (by decide)])]
  rw [List.filter_eq_nil_iff.mpr
    (fun p hp => by simp [isXFlag_false (mem_formParts hp) (by decide)])]
  rw [List.filter_eq_nil_iff.mpr
    (fun p hp => by simp [isXFlag_false (mem_jsonBodyParts hp) (by decide)])]
  rw [List.filter_eq_nil_iff.mpr
    (fun p hp => by simp [isXFlag_false (mem_rawBodyParts hp) (by decide)])]
  rw [List.filter_eq_nil_iff.mpr
    (fun p hp => by rw [mem_gzipParts hp]; decide)]
  rw [List.filter_eq_nil_iff.mpr
    (fun p hp => by rw [mem_insecureParts hp]; decide)]
  rw [List.filter_eq_nil_iff.mpr
    (fun p hp => by rw [mem_redirectParts hp]; decide)]
  rw [List.filter_eq_nil_iff.mpr
    (fun p hp => by simp [isXFlag_false (take2_of_take3 (mem_timeoutParts hp)) (by decide)])]
  rw [List.filter_eq_nil_iff.mpr
    (fun p hp => by rw [mem_fullResponseParts hp]; decide)]
  rw [List.filter_eq_nil_iff.mpr
    (fun p hp => by simp [isXFlag_false_of_take1 (mem_urlParts hp) (by decide)])]
  simp

theorem filter_isMaxTime_parts (c : Config) :
    (jsonToCurlParts c).filter isMaxTimeFlag = timeoutParts c := by
  unfold jsonToCurlParts
  simp only [List.filter_append]
  rw [show (["curl"] : List String).filter isMaxTimeFlag = [] from by decide]
  rw [List.filter_eq_nil_iff.mpr
    (fun p hp => by simp [isMaxTimeFlag_false (mem_methodParts hp) (by decide)])]
  rw [List.filter_eq_nil_iff.mpr
    (fun p hp => by simp [isMaxTimeFlag_false (mem_headerParts hp) (by decide)])]
  rw [List.filter_eq_nil_iff.mpr
    (fun p hp => by simp [isMaxTimeFlag_false (mem_formParts hp) (by decide)])]
  rw [List.filter_eq_nil_iff.mpr
    (fun p hp => by simp [isMaxTimeFlag_false (mem_jsonBodyParts hp) (by decide)])]
  rw [List.filter_eq_nil_iff.mpr
    (fun p hp => by simp [isMaxTimeFlag_false (mem_rawBodyParts hp) (by decide)])]
  rw [List.filter_eq_nil_iff.mpr
    (fun p hp => by rw [mem_gzipParts hp]; decide)]
  rw [List.filter_eq_nil_iff.mpr
    (fun p hp => by rw [mem_insecureParts hp]; decide)]
  rw [List.filter_eq_nil_iff.mpr
    (fun p hp => by rw [mem_redirectParts hp]; decide)]
  rw [List.filter_eq_self.mpr (fun p hp => by simp [isMaxTimeFlag, mem_timeoutParts hp])]
  rw [List.filter_eq_nil_iff.mpr
    (fun p hp => by rw [mem_fullResponseParts hp]; decide)]
  rw [List.filter_eq_nil_iff.mpr
    (fun p hp => by simp [isMaxTimeFlag_false_of_take1 (mem_urlParts hp) (by decide)])]
  simp

theorem filter_isUrl_parts (c : Config) :
    (jsonToCurlParts c).filter isUrlToken = urlParts c := by
  unfold jsonToCurlParts
  simp only [List.filter_append]
  rw [show (["curl"] : List String).filter isUrlToken = [] from by decide]
  rw [List.filter_eq_nil_iff.mpr
    (fun p hp => by simp [isUrlToken_false (mem_methodParts hp) (by decide)])]
  rw [List.filter_eq_nil_iff.mpr
    (fun p hp => by simp [isUrlToken_false (mem_headerParts hp) (by decide)])]
  rw [List.filter_eq_nil_iff.mpr
    (fun p hp => by simp [isUrlToken_false (mem_formParts hp) (by decide)])]
  rw [List.filter_eq_nil_iff.mpr
    (fun p hp => by simp [isUrlToken_false (mem_jsonBodyParts hp) (by decide)])]
  rw [List.filter_eq_nil_iff.mpr
    (fun p hp => by simp [isUrlToken_false (mem_rawBodyParts hp) (by decide)])]
  rw [List.filter_eq_nil_iff.mpr
    (fun p hp => by rw [mem_gzipParts hp]; decide)]
  rw [List.filter_eq_nil_iff.mpr
    (fun p hp => by rw [mem_insecureParts hp]; decide)]
  rw [List.filter_eq_nil_iff.mpr
    (fun p hp => by rw [mem_redirectParts hp]; decide)]
  rw [List.filter_eq_nil_iff.mpr
    (fun p hp => by simp [isUrlToken_false (take2_of_take3 (mem_timeoutParts hp)) (by decide)])]
  rw [List.filter_eq_nil_iff.mpr
    (fun p hp => by rw [mem_fullResponseParts hp]; decide)]
  rw [List.filter_eq_self.mpr (fun p hp => by simp [isUrlToken, mem_urlParts hp])]
  simp

/-- The literal token `-k` occurs in the output exactly when the
`rejectUnauthorized` component emits it. -/
theorem k_mem_parts (c : Config) :
    ("-k" ∈ jsonToCurlParts c) ↔ ("-k" ∈ insecureParts c) := by
  unfold jsonToCurlParts
  simp only [List.mem_append, or_assoc]
  constructor
  · rintro (h | h | h | h | h | h | h | h | h | h | h | h)
    · simp at h
    · exact absurd (mem_methodParts h) (by decide)
    · exact absurd (mem_headerParts h) (by decide)
    · exact absurd (mem_formParts h) (by decide)
    · exact absurd (mem_jsonBodyParts h) (by decide)
    · exact absurd (mem_rawBodyParts h) (by decide)
    · exact absurd (mem_gzipParts h) (by decide)
    · exact h
    · exact absurd (mem_redirectParts h) (by decide)
    · exact absurd (mem_timeoutParts h) (by decide)
    · exact absurd (mem_fullResponseParts h) (by decide)
    · exact absurd (mem_urlParts h) (by decide)
  · intro h
    tauto

/-- `String.intercalate.go acc s l` extends its accumulator on the right. -/
theorem intercalate_go_prefix (s : String) (l : List String) (acc : String) :
    ∃ r, String.intercalate.go acc s l = acc ++ r := by
  induction l generalizing acc with
  | nil => exact ⟨"", by simp [String.intercalate.go]⟩
  | cons a as ih =>
    obtain ⟨r, hr⟩ := ih (acc ++ s ++ a)
    exact ⟨s ++ a ++ r, by rw [String.intercalate.go, hr]; simp [String.append_assoc]⟩

/-! ### Claim theorems -/

/-- C1, counterexample: the config `{form: {a: "1"}, body: "", json: true}`
has a non-empty `form` mapping, a present `body` and truthy `json`, yet the
output contains exactly one `-d` flag (the form one), not two: a present
but falsy body (the empty string) fails the source's truthiness test
`config.body && config.json`. -/
theorem C1_counterexample :
    (jsonToCurlParts cfgFormFalsyBody).filter isDFlag = ["-d 'a=1'"] ∧
    ((jsonToCurlParts cfgFormFalsyBody).filter isDFlag).length ≠ 2 := by
  constructor
  · decide
  · decide

/-- C1 (amended: `body` must be truthy, not merely present): for every
config with a non-empty `form` mapping, a truthy `body`, and truthy
`json`, the output contains exactly two `-d` flags, the form-encoded one
first and the json-body one second. -/
theorem C1_independent_conditionals (c : Config) (fs : List (String × Option String))
    (b : Json) (hf : c.form = some fs) (hfs : fs ≠ []) (hb : c.body = some b)
    (hbt : b.truthy = true) (hj : c.json = some true) :
    (jsonToCurlParts c).filter isDFlag =
      ["-d '" ++ formPayload fs ++ "'", "-d '" ++ escapeQuotes (bodyString b) ++ "'"] := by
  rw [filter_isD_parts]
  unfold formParts jsonBodyParts rawBodyParts
  rw [hf, hb, hj]
  simp [hfs, hbt]

/-- C1, witness: at `{form: {a: "1"}, body: "hello", json: true}` the two
`-d` flags appear in form-then-json order. -/
theorem C1_independent_conditionals_witness :
    (jsonToCurlParts cfgFormAndBody).filter isDFlag = ["-d 'a=1'", "-d 'hello'"] := by
  have h := C1_independent_conditionals cfgFormAndBody [("a", some "1")] (Json.str "hello")
    rfl (by decide) rfl (by decide) rfl
  rw [h]
  decide

/-- C2, counterexample: the config `{body: "", form: {}}` has a present
`body`, falsy `json` and an empty `form` mapping, yet the output contains
no `-d` flag at all: an empty `form` object is truthy in JavaScript, so
`!config.form` blocks the raw-body branch, and the empty-string body is
falsy anyway. -/
theorem C2_counterexample :
    (jsonToCurlParts cfgBodyEmptyForm).filter isDFlag = [] := by
  decide

/-- C2 (amended: `body` must be truthy and `form` absent, not merely
empty): for every config with a truthy `body`, falsy `json` and no `form`
field, the output contains exactly one `-d` flag, whose payload is the
body verbatim when it is a string (otherwise its compact JSON
serialization), with single quotes escaped as `'\''`. -/
theorem C2_raw_body_flag (c : Config) (b : Json) (hb : c.body = some b)
    (hbt : b.truthy = true) (hj : c.json.getD false = false) (hf : c.form = none) :
    (jsonToCurlParts c).filter isDFlag = ["-d '" ++ escapeQuotes (bodyString b) ++ "'"] := by
  rw [filter_isD_parts]
  unfold formParts jsonBodyParts rawBodyParts
  rw [hf, hb]
  simp [hbt, hj]

/-- C2, witness: at `{body: "hello"}` the raw-body flag is `-d 'hello'`. -/
theorem C2_raw_body_flag_witness :
    (jsonToCurlParts cfgRawBody).filter isDFlag = ["-d 'hello'"] := by
  have h := C2_raw_body_flag cfgRawBody (Json.str "hello") rfl (by decide) rfl rfl
  rw [h]
  decide

/-- C3: for every config, the `-H` flags of the output are exactly one per
header entry, in insertion order, each of the form `-H '<name>: <value>'`
with every single quote of the value escaped as `'\''`; in particular the
value `it's` is emitted as `it'\''s` and the generated header tokens of a
two-header config come out in order. -/
theorem C3_header_flags :
    (∀ c : Config,
      (jsonToCurlParts c).filter isHFlag = (c.headers.getD []).map headerFlag) ∧
    escapeQuotes "it's" = "it'\\''s" ∧
    jsonToCurlParts cfgHdr =
      ["curl", "-H 'Content-Type: application/json'", "-H 'X-Q: it'\\''s'"] := by
  refine ⟨fun c => ?_, by decide, by decide⟩
  rw [filter_isH_parts]
  unfold headerParts
  cases h : c.headers <;> simp [h]

/-- C4: for every config with a present, non-empty `form` mapping, the form
step emits the single `-d` flag whose payload percent-encodes the entries
as `key=value` pairs joined with `&`, in insertion order (a `null` value
encoding as the empty string), and that flag occurs in the output; the
spec's scenario `{form: {a: "1", b: "two words"}}` yields
`-d 'a=1&b=two%20words'`. -/
theorem C4_form_flag :
    (∀ (c : Config) (fs : List (String × Option String)), c.form = some fs → fs ≠ [] →
      formParts c = ["-d '" ++ formPayload fs ++ "'"] ∧
      ("-d '" ++ formPayload fs ++ "'") ∈ jsonToCurlParts c) ∧
    jsonToCurlParts cfgForm = ["curl", "-d 'a=1&b=two%20words'"] := by
  constructor
  · intro c fs hf hfs
    have h1 : formParts c = ["-d '" ++ formPayload fs ++ "'"] := by
      unfold formParts
      rw [hf]
      simp [hfs]
    refine ⟨h1, ?_⟩
    have h2 : ("-d '" ++ formPayload fs ++ "'") ∈ formParts c := by
      rw [h1]
      exact List.mem_singleton_self _
    unfold jsonToCurlParts
    simp only [List.mem_append]
    tauto
  · decide

/-- C5: for every config with a truthy `uri` and a present `url`, the URL
token is built from `uri` and is the final token of the output; the spec's
scenario `{uri: "https://x.test", url: "https://y.test"}` resolves to
`'https://x.test'`. -/
theorem C5_uri_precedence :
    (∀ (c : Config) (u v : String), c.uri = some u → u ≠ "" → c.url = some v →
      urlParts c = ["'" ++ u ++ "'"] ∧
      (jsonToCurlParts c).getLast? = some ("'" ++ u ++ "'")) ∧
    jsonToCurlParts cfgUriUrl = ["curl", "'https://x.test'"] := by
  constructor
  · intro c u v hu hne hv
    have h1 : urlParts c = ["'" ++ u ++ "'"] := by
      unfold urlParts resolvedUrl
      rw [hu]
      simp [hne]
    refine ⟨h1, ?_⟩
    unfold jsonToCurlParts
    rw [h1]
    rw [List.getLast?_append_cons]
    rfl
  · decide

/-- C5, witness: at the spec's scenario config, the URL token comes from
`uri` and closes the command. -/
theorem C5_uri_precedence_witness :
    urlParts cfgUriUrl = ["'https://x.test'"] ∧
    (jsonToCurlParts cfgUriUrl).getLast? = some "'https://x.test'" := by
  have h := C5_uri_precedence.1 cfgUriUrl "https://x.test" "https://y.test" rfl (by decide) rfl
  exact ⟨h.1, h.2⟩

/-- C4, witness: at the spec's form scenario, the form `-d` flag is
`-d 'a=1&b=two%20words'` and occurs in the output. -/
theorem C4_form_flag_witness :
    formParts cfgForm = ["-d 'a=1&b=two%20words'"] ∧
    ("-d 'a=1&b=two%20words'" : String) ∈ jsonToCurlParts cfgForm := by
  have h := C4_form_flag.1 cfgForm [("a", some "1"), ("b", some "two words")] rfl (by decide)
  constructor
  · rw [h.1]
    decide
  · have h2 := h.2
    have h3 : ("-d '" ++ formPayload [("a", some "1"), ("b", some "two words")] ++ "'") =
        "-d 'a=1&b=two%20words'" := by decide
    rwa [h3] at h2

/-- C6: for every config the `-X` flags of the output are exactly
`["-X <METHOD>"]` when the uppercased method differs from `GET` and none
otherwise; an absent `method` yields no `-X` flag, and a `method` of any
letter case whose uppercasing is `POST` yields exactly `-X POST`. -/
theorem C6_method_flag :
    (∀ c : Config, (jsonToCurlParts c).filter isXFlag =
      if upperMethod c = "GET" then [] else ["-X " ++ upperMethod c]) ∧
    (∀ c : Config, c.method = none → (jsonToCurlParts c).filter isXFlag = []) ∧
    (∀ (c : Config) (m : String), c.method = some m → upperAscii m = "POST" →
      (jsonToCurlParts c).filter isXFlag = ["-X POST"]) := by
  refine ⟨fun c => ?_, fun c h => ?_, fun c m hm hup => ?_⟩
  · rw [filter_isX_parts]
    unfold methodParts
    rfl
  · have hM : upperMethod c = "GET" := by
      unfold upperMethod
      rw [h]
      decide
    rw [filter_isX_parts]
    unfold methodParts
    rw [hM]
    simp
  · by_cases hm0 : m = ""
    · subst hm0
      exact absurd hup (by decide)
    · have hM : upperMethod c = "POST" := by
        unfold upperMethod
        rw [hm]
        simp [hm0, hup]
      rw [filter_isX_parts]
      unfold methodParts
      rw [hM]
      decide
  
/-- C6, witness: the empty config emits no `-X` flag and
`{method: "post"}` emits exactly `-X POST`. -/
theorem C6_method_flag_witness :
    (jsonToCurlParts emptyConfig).filter isXFlag = [] ∧
    (jsonToCurlParts cfgPost).filter isXFlag = ["-X POST"] :=
  ⟨C6_method_flag.2.1 emptyConfig rfl, C6_method_flag.2.2 cfgPost "post" rfl (by decide)⟩

/-- C7: for every config the `--max-time` flags of the output are exactly
`["--max-time N"]` when `timeout` is a non-zero integer and none
otherwise, where `N = ceilDiv1000 timeout` is the genuine ceiling of
`timeout / 1000`; `timeout: 1500` and `timeout: 2000` both yield
`--max-time 2`. -/
theorem C7_timeout_flag :
    (∀ c : Config, (jsonToCurlParts c).filter isMaxTimeFlag =
      match c.timeout with
      | some t => if t = 0 then [] else ["--max-time " ++ toString (ceilDiv1000 t)]
      | none => []) ∧
    (∀ t : Int, 1000 * (ceilDiv1000 t - 1) < t ∧ t ≤ 1000 * ceilDiv1000 t) ∧
    ceilDiv1000 1500 = 2 ∧ ceilDiv1000 2000 = 2 ∧
    jsonToCurlParts cfgT1500 = ["curl", "--max-time 2"] ∧
    jsonToCurlParts cfgT2000 = ["curl", "--max-time 2"] := by
  refine ⟨fun c => ?_, fun t => ?_, by decide, by decide, by decide, by decide⟩
  · rw [filter_isMaxTime_parts]
    unfold timeoutParts
    rfl
  · unfold ceilDiv1000
    have h1 := Int.ediv_add_emod (t + 999) 1000
    have h2 := Int.emod_nonneg (t + 999) (show (1000 : Int) ≠ 0 by norm_num)
    have h3 := Int.emod_lt_of_pos (t + 999) (show (0 : Int) < 1000 by norm_num)
    omega

/-- The insecure component emits `-k` exactly for the strict boolean
`false`, never for other (even falsy) values. -/
theorem mem_insecure_iff (c : Config) :
    ("-k" ∈ insecureParts c) ↔ c.rejectUnauthorized = some (Json.bool false) := by
  unfold insecureParts
  rcases hr : c.rejectUnauthorized with _ | j
  · simp
  · cases j with
    | null => simp
    | bool b => cases b <;> simp
    | num n => simp
    | str s => simp
    | arr xs => simp
    | obj fs => simp

/-- C8: for every config, the output contains the `-k` token exactly when
`rejectUnauthorized` is the strict boolean `false`; the values `true` and
`0` and an absent field do not trigger it, and `false` does. -/
theorem C8_insecure_flag :
    (∀ c : Config,
      ("-k" ∈ jsonToCurlParts c) ↔ c.rejectUnauthorized = some (Json.bool false)) ∧
    ("-k" ∉ jsonToCurlParts cfgRejTrue) ∧
    ("-k" ∉ jsonToCurlParts cfgRejZero) ∧
    ("-k" ∉ jsonToCurlParts emptyConfig) ∧
    ("-k" ∈ jsonToCurlParts cfgRejFalse) := by
  refine ⟨fun c => (k_mem_parts c).trans (mem_insecure_iff c), by decide, by decide,
    by decide, by decide⟩

/-- C9: the translator is total by construction (a Lean function on
`Config`); the empty configuration yields the degenerate output `curl`,
and every output is the string `curl` followed by the joined flag tokens,
so absent optional fields only ever omit flags, never fail. -/
theorem C9_totality :
    jsonToCurl emptyConfig = "curl" ∧
    (∀ c : Config, ∃ r : String, jsonToCurl c = "curl" ++ r) := by
  constructor
  · decide
  · intro c
    exact intercalate_go_prefix curlSep _ "curl"

/-- C10: for every config, the output contains a single-quoted URL token
exactly when the resolved URL (`uri` first when truthy, else `url`) is a
truthy (non-empty) string; an empty-string `url` with no usable `uri`
yields no URL token, and an empty-string `uri` falls through to `url`. -/
theorem C10_url_token :
    (∀ c : Config, ((jsonToCurlParts c).filter isUrlToken ≠ []) ↔
      (∃ u, resolvedUrl c = some u ∧ u ≠ "")) ∧
    jsonToCurlParts cfgUrlEmpty = ["curl"] ∧
    jsonToCurlParts cfgUriEmptyUrl = ["curl", "'https://y.test'"] := by
  refine ⟨fun c => ?_, by decide, by decide⟩
  rw [filter_isUrl_parts]
  unfold urlParts
  cases h : resolvedUrl c with
  | none => simp
  | some u =>
    by_cases hu : u = "" <;> simp [hu]
